import Mathlib

/-!
Formal model of the canvas-analysis pipeline of the doodle-mentor-ai
repository (`src/services/canvasAnalysisService.ts`, the two unnamed
variants of it, and the server-side OCR service in `src/server/server.js`).

The TypeScript code is shallowly embedded:

* Strings are modelled as `List Char`; JS `String.prototype.substr`,
  `trim`, `split`, `join` and regex operations are given explicit
  executable models.
* The regular expressions used by the content classifiers only apply
  quantifiers (`+`, `*`, `?`) to single-character classes, so they are
  modelled by a small linear regex interpreter (`RItem` / `matchSeq` /
  `searchFrom`) with JS `\b` word-boundary semantics.
* The mutable fields of `CanvasAnalysisService` become explicit state
  records; `async`/`await` scheduling of the analysis queue becomes a
  labelled transition system (`QStep`) whose transitions follow the JS
  event-loop semantics: an `async` function runs synchronously up to its
  first `await`, so `queueAnalysis` on an idle queue dequeues and starts
  the new task during the enqueue call itself, and the drain loop of
  `processQueue` resumes only when the awaited task settles.
* Remote collaborators (OCR, chat completion) are modelled as oracle
  arguments of type `Option _`; `none` is the failure (rejected promise)
  case that the source catches.
-/

namespace DoodleMentor

/-! ### A linear regex interpreter

Every regex literal in `canvasAnalysisService.ts` is a concatenation of
single-character classes, each optionally under `+`, `*` or `?`, plus
word boundaries `\b`, combined by top-level alternation (word lists such
as `\b(solve|equation|...)\b`).  `RItem` is one such atom; a sequence
`List RItem` is one alternative; a pattern is a list of alternatives. -/

inductive RItem where
  | one (p : Char → Bool)
  | opt (p : Char → Bool)
  | star (p : Char → Bool)
  | plus (p : Char → Bool)
  | bnd

/-- JS `\w`: ASCII letters, digits and underscore. -/
def isWordChar (c : Char) : Bool :=
  c.isAlpha || c.isDigit || c = '_'

/-- JS `\s` restricted to the ASCII whitespace characters (the inputs in
this development are ASCII). -/
def isSpaceChar (c : Char) : Bool :=
  c = ' ' || c = '\t' || c = '\n' || c = '\r' || c = Char.ofNat 11 || c = Char.ofNat 12

/-- JS `\b`: the position between `prev` and the head of `s` is a word
boundary iff exactly one side is a word character (string edges count as
non-word). -/
def boundaryAt (prev : Option Char) (s : List Char) : Bool :=
  let pw : Bool := match prev with | some c => isWordChar c | none => false
  let nw : Bool := match s with | c :: _ => isWordChar c | [] => false
  pw != nw

/-- Matching a sequence of atoms against the empty remainder of the
input; only boundary and nullable atoms may still succeed. -/
def matchEmpty : List RItem → Option Char → Bool
  | [], _ => true
  | RItem.bnd :: rest, prev => boundaryAt prev [] && matchEmpty rest prev
  | RItem.one _ :: _, _ => false
  | RItem.opt _ :: rest, prev => matchEmpty rest prev
  | RItem.star _ :: rest, prev => matchEmpty rest prev
  | RItem.plus _ :: _, _ => false

/-- One matching step at input `c :: s`; `next` matches sequences
against the strictly shorter input `s`.  The alternation inside
`opt`/`star` gives exactly the exists-a-match semantics of a
backtracking engine. -/
def matchStep (c : Char) (s : List Char) (next : List RItem → Option Char → Bool) :
    List RItem → Option Char → Bool
  | [], _ => true
  | RItem.bnd :: rest, prev => boundaryAt prev (c :: s) && matchStep c s next rest prev
  | RItem.one p :: rest, _ => p c && next rest (some c)
  | RItem.opt p :: rest, prev =>
      matchStep c s next rest prev || (p c && next rest (some c))
  | RItem.star p :: rest, prev =>
      matchStep c s next rest prev || (p c && next (RItem.star p :: rest) (some c))
  | RItem.plus p :: rest, _ => p c && next (RItem.star p :: rest) (some c)

/-- Matching a sequence of atoms against a prefix of the input; the
`Option Char` argument is the character immediately before the current
position (for `\b`).  Structured as nested structural recursion (outer
on the input, inner on the atom list) so that it evaluates by kernel
reduction. -/
def matchList : List Char → List RItem → Option Char → Bool
  | [], items, prev => matchEmpty items prev
  | c :: rest, items, prev => matchStep c rest (matchList rest) items prev

/-- Matching with the argument order used by the pattern definitions. -/
def matchSeq (items : List RItem) (prev : Option Char) (s : List Char) : Bool :=
  matchList s items prev

/-- Unanchored search: does any alternative match starting at any
position of `s`?  `prev` tracks the character before the current start
position so that `\b` is interpreted correctly. -/
def searchFrom (pat : List (List RItem)) (prev : Option Char) (s : List Char) : Bool :=
  pat.any (fun seq => matchSeq seq prev s) ||
    match s with
    | [] => false
    | c :: rest => searchFrom pat (some c) rest

/-- JS `RegExp.prototype.test`. -/
def testPat (pat : List (List RItem)) (s : List Char) : Bool :=
  searchFrom pat none s

/-! #### Character classes used by the source patterns -/

/-- Case-insensitive literal (the `i` flag); `c` is given in lowercase. -/
def ciChar (c : Char) : Char → Bool := fun x => x.toLower = c

/-- Case-sensitive literal. -/
def exChar (c : Char) : Char → Bool := fun x => x = c

/-- JS `\d`. -/
def digitP : Char → Bool := fun c => c.isDigit

/-- The class `[\+\-\*\/]`. -/
def opChar : Char → Bool := fun c => c = '+' || c = '-' || c = '*' || c = '/'

/-- The class `[\+\-\*\/\=]`. -/
def opEqChar : Char → Bool := fun c => c = '+' || c = '-' || c = '*' || c = '/' || c = '='

/-- The class `[a-z]` under the `i` flag (so it also matches uppercase). -/
def alphaCI : Char → Bool := fun c => c.isAlpha

/-- The class `[^\d\s]`. -/
def notDigitSpace : Char → Bool := fun c => !(c.isDigit || isSpaceChar c)

/-- The class `[^0]`. -/
def notZeroChar : Char → Bool := fun c => !(c = '0')

/-- Shorthand for `\d+`. -/
def dplus : RItem := RItem.plus digitP

/-- Shorthand for `\s*`. -/
def sstar : RItem := RItem.star isSpaceChar

/-- One case-insensitive literal word as a sequence of atoms. -/
def ciWord (w : List Char) : List RItem :=
  w.map (fun c => RItem.one (ciChar c))

/-- A pattern of the shape `\b(w1|w2|...)\b` with the `i` flag. -/
def wordPat (ws : List (List Char)) : List (List RItem) :=
  ws.map (fun w => RItem.bnd :: (ciWord w ++ [RItem.bnd]))

/-! ### Content classifier patterns

Transcribed from `detectMathContent`, `detectQuestionWords`,
`detectPotentialMathError` and `detectLearningKeywords` in
`src/unnamed/part_000` (identical in `part_001` up to a mojibake of the
square-root character, for which the `part_000` reading `√` is used). -/

/-- ASCII apostrophe, written by code point to keep string literals plain. -/
def apos : Char := Char.ofNat 39

/-- The literal alternative `don't understand`. -/
def dontUnderstand : List Char :=
  "don".toList ++ [apos] ++ "t understand".toList

/-- The fifteen `mathPatterns` regexes of `detectMathContent`. -/
def mathPatterns : List (List (List RItem)) :=
  [ [[dplus, sstar, RItem.one opEqChar, sstar, dplus]],
    [[dplus, sstar, RItem.one opChar, sstar, dplus, sstar, RItem.one opChar, sstar, dplus]],
    wordPat ["solve".toList, "equation".toList, "calculate".toList, "sum".toList,
             "product".toList, "divide".toList, "multiply".toList, "add".toList,
             "subtract".toList],
    [[RItem.bnd, RItem.one alphaCI, sstar, RItem.one opEqChar, sstar, dplus]],
    [[RItem.bnd, dplus, RItem.one alphaCI, RItem.bnd]],
    wordPat ["fraction".toList, "decimal".toList, "percentage".toList,
             "percent".toList, "ratio".toList, "proportion".toList],
    wordPat ["geometry".toList, "triangle".toList, "circle".toList, "square".toList,
             "rectangle".toList, "area".toList, "perimeter".toList, "volume".toList],
    wordPat ["sin".toList, "cos".toList, "tan".toList, "log".toList, "ln".toList],
    [[dplus, RItem.one (exChar '/'), dplus]],
    wordPat ["theorem".toList, "proof".toList, "formula".toList,
             "derivative".toList, "integral".toList],
    [RItem.bnd :: dplus :: sstar :: (ciWord "degree".toList ++ [RItem.opt (ciChar 's'), RItem.bnd])],
    wordPat ["slope".toList, "intercept".toList, "linear".toList,
             "quadratic".toList, "polynomial".toList],
    [[RItem.one (exChar '^'), dplus]],
    [[RItem.one (exChar '√'), dplus]],
    wordPat ["prime".toList, "factor".toList, "gcd".toList, "lcm".toList] ]

/-- Model of `detectMathContent`: `mathPatterns.some(p => p.test(text))`. -/
def detectMathContent (text : List Char) : Bool :=
  mathPatterns.any (fun p => testPat p text)

/-- The three `questionPatterns` regexes of `detectQuestionWords`. -/
def questionPatterns : List (List (List RItem)) :=
  [ wordPat ["what".toList, "how".toList, "why".toList, "when".toList,
             "where".toList, "which".toList, "who".toList],
    [[RItem.one (exChar '?')]],
    wordPat ["help".toList, "stuck".toList, "confused".toList, dontUnderstand] ]

/-- Model of `detectQuestionWords`. -/
def detectQuestionWords (text : List Char) : Bool :=
  questionPatterns.any (fun p => testPat p text)

/-- The five `errorPatterns` regexes of `detectPotentialMathError`. -/
def errorPatterns : List (List (List RItem)) :=
  [ [[dplus, sstar, RItem.one opChar, sstar, dplus, sstar, RItem.one (exChar '='),
      sstar, RItem.one notDigitSpace]],
    [[RItem.one (exChar '0'), sstar, RItem.one (exChar '/'), sstar, dplus, sstar,
      RItem.one (exChar '='), sstar, dplus]],
    [[dplus, sstar, RItem.one (exChar '*'), sstar, RItem.one (exChar '0'), sstar,
      RItem.one (exChar '='), sstar, RItem.one notZeroChar]],
    [[dplus, sstar, RItem.one (exChar '+'), sstar, dplus, sstar, RItem.one (exChar '='),
      sstar, dplus, sstar, RItem.one (exChar '*'), sstar, dplus]],
    wordPat ["infinite".toList, "undefined".toList, "impossible".toList] ]

/-- Model of `detectPotentialMathError`. -/
def detectPotentialMathError (text : List Char) : Bool :=
  errorPatterns.any (fun p => testPat p text)

/-- The seven `learningPatterns` regexes of `detectLearningKeywords`. -/
def learningPatterns : List (List (List RItem)) :=
  [ wordPat ["definition".toList, "theorem".toList, "rule".toList,
             "formula".toList, "principle".toList],
    wordPat ["because".toList, "therefore".toList, "thus".toList,
             "hence".toList, "so".toList],
    wordPat ["step".toList, "method".toList, "process".toList,
             "procedure".toList, "algorithm".toList],
    wordPat ["example".toList, "instance".toList, "case".toList, "scenario".toList],
    wordPat ["property".toList, "characteristic".toList, "feature".toList,
             "attribute".toList],
    wordPat ["concept".toList, "idea".toList, "theory".toList, "hypothesis".toList],
    wordPat ["remember".toList, "recall".toList, "know".toList,
             "understand".toList, "learn".toList] ]

/-- Model of `detectLearningKeywords`. -/
def detectLearningKeywords (text : List Char) : Bool :=
  learningPatterns.any (fun p => testPat p text)

/-! ### Data model of the canvas analysis service -/

/-- The `analysisType` enum of `CanvasAnalysisResult`. -/
inductive AnalysisType where
  | text
  | drawing
  | mixed
deriving DecidableEq

/-- The `type` enum of `LiveCommentary`. -/
inductive CommentType where
  | encouragement
  | suggestion
  | correction
  | observation
deriving DecidableEq

/-- The `triggerReason` strings produced by `generateLiveCommentary`,
as an enumeration. -/
inductive TriggerReason where
  | math_content_detected
  | question_detected
  | learning_content_detected
  | text_written
  | drawing_activity
  | canvas_activity
deriving DecidableEq

/-- The `CanvasAnalysisResult` interface.  `Date` timestamps are
modelled as `Nat` instants supplied by the caller; `confidence` is the
number handed through from the OCR collaborator. -/
structure CanvasAnalysisResult where
  extractedText : List Char
  confidence : Nat
  timestamp : Nat
  hasSignificantChange : Bool
  analysisType : AnalysisType
deriving DecidableEq

/-- The `LiveCommentary` record delivered to the observer callback. -/
structure LiveCommentary where
  message : List Char
  type : CommentType
  timestamp : Nat
  triggerReason : TriggerReason
deriving DecidableEq

/-- The mutable fields of a `CanvasAnalysisService` instance that the
analysis functions read or write.  The single observer slot
`commentaryCallback` is modelled by the flag `hasCallback` (the
callback body itself is outside the model; delivery to it is the
`Option LiveCommentary` output of `generateLiveCommentary`).  The
pending task queue is modelled separately by `QueueState`, since queued
tasks are opaque closures. -/
structure ServiceState where
  lastAnalysis : Option CanvasAnalysisResult
  lastImageData : Option (List Char)
  hasCallback : Bool
  personality : List Char
deriving DecidableEq

/-! ### Change detector (`hasSignificantImageChange`) -/

/-- JS `String.prototype.substr(i, len)` on a `List Char`. -/
def jsSubstr (s : List Char) (i len : Nat) : List Char :=
  (s.drop i).take len

/-- The sample offset `Math.floor(len * point)` for a sample point
`point = num / den`.  The three sample points 0.25, 0.5 and 0.75 and
their products with any realistic string length are exactly
representable as binary doubles, so the JS floating-point computation
agrees with this natural-number formula. -/
def sampleIndex (len num den : Nat) : Nat :=
  len * num / den

/-- The three `samplePoints` 0.25, 0.5, 0.75 as exact fractions. -/
def samplePairs : List (Nat × Nat) := [(1, 4), (1, 2), (3, 4)]

/-- Whether the two 100-character samples at one sample point differ
(the comparison `newSample !== oldSample` of the source). -/
def sampleDiffers (newData old : List Char) (pr : Nat × Nat) : Bool :=
  decide (jsSubstr newData (sampleIndex newData.length pr.1 pr.2) 100 ≠
          jsSubstr old (sampleIndex old.length pr.1 pr.2) 100)

/-- The `differenceCount` loop of `hasSignificantImageChange`: a sample
point contributes only when both computed offsets are in range. -/
def diffCount (newData old : List Char) : Nat :=
  samplePairs.foldl
    (fun acc pr =>
      if sampleIndex newData.length pr.1 pr.2 < newData.length ∧
         sampleIndex old.length pr.1 pr.2 < old.length then
        if sampleDiffers newData old pr then acc + 1 else acc
      else acc)
    0

/-- Model of `hasSignificantImageChange`.  The source guard
`if (!this.lastImageData) return true` is a JS falsiness test, so both a
`null` stored snapshot and an empty stored snapshot short-circuit to
`true`.  The function reads but never writes the stored snapshot. -/
def hasSignificantImageChange (lastImageData : Option (List Char))
    (newImageData : List Char) : Bool :=
  match lastImageData with
  | none => true
  | some old =>
    if old.isEmpty then true
    else
      let significantSizeChange := decide (1000 < Nat.dist newImageData.length old.length)
      significantSizeChange || decide (2 ≤ diffCount newImageData old)

/-- Reference definition from claim C4 taken literally: no in-range
guard on the sample offsets; the verdict is the plain OR of the
length-difference check and the two-of-three sample check. -/
def hasSignificantImageChangeClaim (lastImageData : Option (List Char))
    (newImageData : List Char) : Bool :=
  match lastImageData with
  | none => true
  | some old =>
    decide (1000 < Nat.dist newImageData.length old.length) ||
      decide (2 ≤ samplePairs.countP (sampleDiffers newImageData old))

/-- Amended reference definition: an empty stored snapshot counts as
absent (JS falsiness), and the three samples are compared only when
both sample offsets are in range, which for a nonempty stored snapshot
happens exactly when the new snapshot is nonempty. -/
def hasSignificantImageChangeAmended (lastImageData : Option (List Char))
    (newImageData : List Char) : Bool :=
  match lastImageData with
  | none => true
  | some old =>
    if old.isEmpty then true
    else
      decide (1000 < Nat.dist newImageData.length old.length) ||
        (if newImageData.isEmpty then false
         else decide (2 ≤ samplePairs.countP (sampleDiffers newImageData old)))

/-! ### Content classifier and analysis-type heuristic -/

/-- Model of `determineAnalysisType`: `textLength` is the length of the
extracted text with all `\s` characters removed. -/
def determineAnalysisType (extractedText imageData : List Char) : AnalysisType :=
  let textLength := (extractedText.filter (fun c => !isSpaceChar c)).length
  let hasText := 5 < textLength
  if hasText ∧ 50000 < imageData.length then AnalysisType.mixed
  else if hasText then AnalysisType.text
  else AnalysisType.drawing

/-- The trigger-reason / comment-type decision of
`generateLiveCommentary` (source lines 156-176 of
`src/unnamed/part_000`), factored out as a function of the extracted
text and the analysis type. -/
def classifyCommentary (text : List Char) (ty : AnalysisType) :
    TriggerReason × CommentType :=
  if 1 < text.length then
    if detectMathContent text then
      (TriggerReason.math_content_detected,
       if detectPotentialMathError text then CommentType.correction
       else CommentType.suggestion)
    else if detectQuestionWords text then
      (TriggerReason.question_detected, CommentType.suggestion)
    else if detectLearningKeywords text then
      (TriggerReason.learning_content_detected, CommentType.suggestion)
    else
      (TriggerReason.text_written, CommentType.observation)
  else if ty = AnalysisType.drawing then
    (TriggerReason.drawing_activity, CommentType.suggestion)
  else
    (TriggerReason.canvas_activity, CommentType.observation)

/-- The classifier as described by claim C5: a flat first-match-wins
priority list in which every text-based guard re-checks the length
condition. -/
def claimClassify (text : List Char) (ty : AnalysisType) :
    TriggerReason × CommentType :=
  if 1 < text.length ∧ detectMathContent text then
    (TriggerReason.math_content_detected,
     if detectPotentialMathError text then CommentType.correction
     else CommentType.suggestion)
  else if 1 < text.length ∧ detectQuestionWords text then
    (TriggerReason.question_detected, CommentType.suggestion)
  else if 1 < text.length ∧ detectLearningKeywords text then
    (TriggerReason.learning_content_detected, CommentType.suggestion)
  else if 1 < text.length then
    (TriggerReason.text_written, CommentType.observation)
  else if ty = AnalysisType.drawing then
    (TriggerReason.drawing_activity, CommentType.suggestion)
  else
    (TriggerReason.canvas_activity, CommentType.observation)

/-! ### Prompt builder and commentary dispatcher -/

/-- Model of `buildContextualPrompt` from `src/unnamed/part_000`
(apostrophes in the templates are spliced in as `apos` to keep the
string literals plain). -/
def buildContextualPrompt (analysis : CanvasAnalysisResult)
    (triggerReason : TriggerReason) : List Char :=
  let base := "You are a teacher standing next to a student. ".toList
  let tailPart := (" Be direct, specific, and pedagogical like a real teacher. " ++
    "Keep it short (1-2 sentences) and always end with a teaching question " ++
    "that makes them think deeper.").toList
  let mid :=
    match triggerReason with
    | TriggerReason.math_content_detected =>
        "The student wrote: \"".toList ++ analysis.extractedText ++
        ("\". Act like a real math teacher: Check if this is correct, point out " ++
         "any errors you see, ask what their next step should be, or guide them " ++
         "to think deeper about the problem. If it").toList ++ [apos] ++
        "s wrong, tell them specifically what".toList ++ [apos] ++
        "s wrong and ask a question to help them figure out the right approach.".toList
    | TriggerReason.question_detected =>
        "The student wrote a question: \"".toList ++ analysis.extractedText ++
        "\". Don".toList ++ [apos] ++
        "t answer directly. Instead, ask them what they think, what they".toList ++
        [apos] ++
        ("ve tried so far, or guide them to break down the question into " ++
         "smaller parts they can solve.").toList
    | TriggerReason.learning_content_detected =>
        "Student wrote learning content: \"".toList ++ analysis.extractedText ++
        ("\". Act like a teacher checking understanding: Ask them to explain " ++
         "what this means in their own words, give an example, or connect it " ++
         "to something they already know. If it").toList ++ [apos] ++
        "s incomplete or unclear, guide them to think deeper.".toList
    | TriggerReason.text_written =>
        "Student wrote: \"".toList ++ analysis.extractedText ++
        ("\". Check for understanding by asking what they mean, if they can " ++
         "explain it back, or what the next logical step would be. Point out " ++
         "if anything seems unclear or incorrect.").toList
    | TriggerReason.drawing_activity =>
        ("The student is drawing/sketching. If it looks like a diagram, graph, " ++
         "or visual problem-solving, ask them to explain what they").toList ++
        [apos] ++ "re showing, check if it".toList ++ [apos] ++
        "s accurate, or guide them to add missing elements. Don".toList ++ [apos] ++
        "t just praise - teach!".toList
    | TriggerReason.canvas_activity =>
        "The student is working. Ask them what they".toList ++ [apos] ++
        "re thinking about, what they".toList ++ [apos] ++
        "re trying to solve, or guide them to the next step in their learning process.".toList
  base ++ mid ++ tailPart

/-- Model of `generateLiveCommentary`.  The chat collaborator
(`ApiService.sendChatMessage`) is an oracle: `some msg` is a successful
response with message `msg`, `none` a rejected promise (the `catch`
branch: log and return).  Output: the (unchanged) service state, the
commentary delivered to the observer callback (`none` when the callback
is never invoked), and the number of chat-collaborator calls made. -/
def generateLiveCommentary (st : ServiceState) (analysis : CanvasAnalysisResult)
    (chatOutcome : Option (List Char)) (now : Nat) :
    ServiceState × Option LiveCommentary × Nat :=
  if st.hasCallback = false then (st, none, 0)
  else
    let cls := classifyCommentary analysis.extractedText analysis.analysisType
    let _prompt := buildContextualPrompt analysis cls.1
    match chatOutcome with
    | none => (st, none, 1)
    | some msg =>
        (st,
         some { message := msg, type := cls.2, timestamp := now,
                triggerReason := cls.1 },
         1)

/-! ### OCR entry points -/

/-- Model of the client-side `performOCR` (the `part_001` variant): the
OCR collaborator is an oracle `Option (text, confidence)`; on a
rejected promise the `catch` branch returns `{ text: '', confidence: 0 }`
instead of re-throwing.  The `part_000` variant additionally trims the
recognized text on success and throws before the `try` block when its
worker is missing; the failure path modelled here is identical in
both. -/
def performOCR (outcome : Option (List Char × Nat)) : List Char × Nat :=
  match outcome with
  | some r => r
  | none => ([], 0)

/-- Model of `analyzeCanvas` up to the point where it returns to its
caller.  If the change detector reports no significant change the
cached `lastAnalysis` is returned and nothing is queued.  Otherwise one
analysis task is queued; because that task suspends at its first
`await` (the OCR call) before writing any state, the value returned to
the caller is still the previous `lastAnalysis` and the service fields
are unchanged at return time.  Output: returned value, service state at
return time, number of analysis tasks queued by the call. -/
def analyzeCanvas (st : ServiceState) (imageData : List Char) :
    Option CanvasAnalysisResult × ServiceState × Nat :=
  if hasSignificantImageChange st.lastImageData imageData then
    (st.lastAnalysis, st, 1)
  else
    (st.lastAnalysis, st, 0)

/-- Model of the body of the task queued by `analyzeCanvas` (the async
closure handed to `queueAnalysis`): run OCR, build the fresh
`CanvasAnalysisResult`, store it and the snapshot, and dispatch
commentary when the text is non-trivial or the type is `drawing`
(the `part_000` guard). -/
def runAnalysisTask (st : ServiceState) (imageData : List Char)
    (ocrOutcome : Option (List Char × Nat)) (chatOutcome : Option (List Char))
    (now : Nat) : ServiceState × Option LiveCommentary × Nat :=
  let ocr := performOCR ocrOutcome
  let analysis : CanvasAnalysisResult :=
    { extractedText := ocr.1, confidence := ocr.2, timestamp := now,
      hasSignificantChange := true,
      analysisType := determineAnalysisType ocr.1 imageData }
  let st2 := { st with lastAnalysis := some analysis,
                       lastImageData := some imageData }
  if 1 < analysis.extractedText.length ∨ analysis.analysisType = AnalysisType.drawing then
    generateLiveCommentary st2 analysis chatOutcome now
  else
    (st2, none, 0)

/-! ### The analysis queue as a transition system

`analysisQueue` holds opaque async closures; tasks are therefore
modelled by identifiers (`Nat`).  The JS event-loop semantics fix when
code runs:

* `queueAnalysis(task)` executes synchronously: the size cap (`shift`
  when `length > 3`), the `push`, and then the call `processQueue()`.
  `processQueue` is `async` but runs synchronously up to its first
  `await`; if the queue was idle it sets `isProcessing`, `shift`s the
  first pending task and starts it, suspending at `await task()`.
  If `isProcessing` is already `true` (or the queue is empty) it
  returns at its guard.  All of this is the single atomic transition
  `enqueueStep`.
* When the awaited task settles (fulfilled, or rejected and caught),
  the drain loop of `processQueue` resumes: it `shift`s and starts the
  next pending task, or, if none is pending, clears `isProcessing`.
  This is the atomic transition `finishStep`.

`running` is kept as a *list* of in-flight tasks rather than an
`Option`, so that mutual exclusion is a provable property of the
transitions, not a consequence of the state type.  `log` records task
entry/exit events. -/

/-- A task entry or exit event. -/
inductive QEvent where
  | start (t : Nat)
  | finish (t : Nat)
deriving DecidableEq

/-- Queue-related fields of a `CanvasAnalysisService` instance. -/
structure QueueState where
  isProcessing : Bool
  queue : List Nat
  running : List Nat
  log : List QEvent
deriving DecidableEq

/-- State of a fresh instance. -/
def initQueueState : QueueState :=
  { isProcessing := false, queue := [], running := [], log := [] }

/-- The size cap and push of `queueAnalysis`: when more than 3 tasks are
pending, `shift()` discards the oldest pending task, then the new task
is appended. -/
def pushTask (s : QueueState) (t : Nat) : QueueState :=
  { s with queue := (if 3 < s.queue.length then s.queue.drop 1 else s.queue) ++ [t] }

/-- The synchronous prefix of a `processQueue()` invocation: return at
the guard when already draining or nothing is pending; otherwise mark
draining, dequeue the first pending task and start it. -/
def processQueueStep (s : QueueState) : QueueState :=
  if s.isProcessing then s
  else
    match s.queue with
    | [] => s
    | h :: rest =>
        { s with isProcessing := true, queue := rest,
                 running := s.running ++ [h],
                 log := s.log ++ [QEvent.start h] }

/-- One `queueAnalysis(task)` call. -/
def enqueueStep (s : QueueState) (t : Nat) : QueueState :=
  processQueueStep (pushTask s t)

/-- Settlement of an in-flight task: the drain loop of `processQueue`
resumes, starting the next pending task or going idle.  A task that
rejected was caught and logged, so both outcomes resume the loop the
same way. -/
def finishStep (s : QueueState) : QueueState :=
  match s.running with
  | [] => s
  | t :: rs =>
    match s.queue with
    | [] =>
        { s with isProcessing := false, running := rs,
                 log := s.log ++ [QEvent.finish t] }
    | h :: qrest =>
        { s with queue := qrest, running := rs ++ [h],
                 log := s.log ++ [QEvent.finish t, QEvent.start h] }

/-- The transition relation: at any time a new task may be enqueued, and
at any time an in-flight task may settle.  Interleavings of enqueues
with a running task are therefore all covered. -/
inductive QStep : QueueState → QueueState → Prop where
  | enqueue (s : QueueState) (t : Nat) : QStep s (enqueueStep s t)
  | settle (s : QueueState) : s.running ≠ [] → QStep s (finishStep s)

/-- Reachability from a fresh instance. -/
def ReachableQ (s : QueueState) : Prop :=
  Relation.ReflTransGen QStep initQueueState s

/-- Fuel-bounded driver that lets every in-flight and pending task
settle; `running.length + queue.length` steps always suffice since each
settlement decreases that sum by one. -/
def drainSteps : Nat → QueueState → QueueState
  | 0, s => s
  | n + 1, s => if s.running = [] then s else drainSteps n (finishStep s)

/-- Let the queue drain completely. -/
def drainAll (s : QueueState) : QueueState :=
  drainSteps (s.running.length + s.queue.length) s

/-- A burst of `queueAnalysis` calls in immediate succession. -/
def runEnqueues (ts : List Nat) : QueueState :=
  ts.foldl enqueueStep initQueueState

/-- Tasks that were started, in execution order, read off the log. -/
def startedTasks (s : QueueState) : List Nat :=
  s.log.filterMap (fun e => match e with
    | QEvent.start t => some t
    | QEvent.finish _ => none)

/-- The safety invariant of the queue machinery: when idle nothing is
in flight, at most one task is ever in flight, and at most 4 tasks are
ever pending. -/
def QInv (s : QueueState) : Prop :=
  (s.isProcessing = false → s.running = []) ∧
  s.running.length ≤ 1 ∧
  s.queue.length ≤ 4

/-! ### Server-side OCR service (`src/server/server.js`, class `OCRService`) -/

/-- Characters kept by the artifact-removal character class of
`cleanExtractedText`: `\w`, `\s`, and the listed math symbols and
punctuation (curly braces written by code point). -/
def cleanKeepChar (c : Char) : Bool :=
  isWordChar c || isSpaceChar c ||
  c = '+' || c = '-' || c = '=' || c = '(' || c = ')' || c = '[' || c = ']' ||
  c = Char.ofNat 123 || c = Char.ofNat 125 ||
  c = '/' || c = '*' || c = '^' || c = '√' || c = '∫' || c = '∑' || c = '∏' ||
  c = 'π' || c = 'θ' || c = 'α' || c = 'β' || c = 'γ' || c = 'δ' || c = 'ε' ||
  c = 'ζ' || c = 'η' || c = 'λ' || c = 'μ' || c = 'ν' || c = 'ξ' || c = 'ρ' ||
  c = 'σ' || c = 'τ' || c = 'φ' || c = 'χ' || c = 'ψ' || c = 'ω' ||
  c = '.' || c = ',' || c = '!' || c = '?' || c = ':' || c = ';'

/-- Replace each maximal run of characters satisfying `p` by the single
character `rep` (the JS global replaces `/\n+/g -> ' '` and
`/\s+/g -> ' '`); the `Bool` accumulator records whether the previous
character was part of a run. -/
def collapseRunsAux (p : Char → Bool) (rep : Char) : Bool → List Char → List Char
  | _, [] => []
  | inRun, c :: rest =>
    if p c then
      if inRun then collapseRunsAux p rep true rest
      else rep :: collapseRunsAux p rep true rest
    else c :: collapseRunsAux p rep false rest

/-- See `collapseRunsAux`. -/
def collapseRuns (p : Char → Bool) (rep : Char) (s : List Char) : List Char :=
  collapseRunsAux p rep false s

/-- JS `String.prototype.trim` (whitespace from both ends). -/
def jsTrim (s : List Char) : List Char :=
  ((s.dropWhile isSpaceChar).reverse.dropWhile isSpaceChar).reverse

/-- The repetition filter of `cleanExtractedText`: walking the word
list with `lastWord` (initially the empty string) and `repeatCount`, a
word equal to the previous one is kept only while fewer than two
repetitions have been seen, and a different word resets the counter. -/
def dedupWordsAux : List Char → Nat → List (List Char) → List (List Char)
  | _, _, [] => []
  | lastWord, repeatCount, w :: ws =>
    if w = lastWord then
      (if repeatCount + 1 < 3 then [w] else []) ++ dedupWordsAux w (repeatCount + 1) ws
    else
      w :: dedupWordsAux w 0 ws

/-- Count of global matches of `/\b\w\b/g`: positions holding a word
character with no adjacent word character. -/
def countSingleAux : Option Char → List Char → Nat
  | _, [] => 0
  | prev, c :: rest =>
    let prevW : Bool := match prev with | some p => isWordChar p | none => false
    let nextW : Bool := match rest with | n :: _ => isWordChar n | [] => false
    (if isWordChar c && !prevW && !nextW then 1 else 0) + countSingleAux (some c) rest

/-- See `countSingleAux`. -/
def countSingleWordChars (text : List Char) : Nat :=
  countSingleAux none text

/-- Model of `OCRService.isTextNonsensical`.  The float comparison
`uniqueWords.size / words.length < 0.3` is modelled by the exact
rational comparison `unique * 10 < length * 3`; the double nearest 0.3
lies below 3/10 by less than 2e-17, so the two comparisons agree for
every string of realistic length.  `singleChars.length > text.length * 0.5`
is exact in floating point and is modelled as `2 * singleChars > length`. -/
def isTextNonsensical (text : List Char) : Bool :=
  if text.length < 3 then true
  else
    let words := text.splitOn ' '
    let uniqueSize := words.eraseDups.length
    if uniqueSize * 10 < words.length * 3 ∧ 5 < words.length then true
    else if text.length < 2 * countSingleWordChars text then true
    else false

/-- The value `finalText` computed by `cleanExtractedText` before the
nonsense check: newline collapse, whitespace collapse, artifact
removal, trim, split on single spaces, repetition filter, rejoin with
single spaces, trim. -/
def cleanFinalText (rawText : List Char) : List Char :=
  let step1 := collapseRuns (fun c => c = '\n') ' ' rawText
  let step2 := collapseRuns isSpaceChar ' ' step1
  let step3 := step2.filter cleanKeepChar
  let cleaned := jsTrim step3
  let words := cleaned.splitOn ' '
  let uniqueWords := dedupWordsAux [] 0 words
  jsTrim (List.intercalate [' '] uniqueWords)

/-- Model of `OCRService.cleanExtractedText`: an empty (falsy) input
returns the empty string at the guard, and a final text judged
nonsensical is replaced by the empty string. -/
def cleanExtractedText (rawText : List Char) : List Char :=
  if rawText.isEmpty then []
  else if isTextNonsensical (cleanFinalText rawText) then []
  else cleanFinalText rawText

/-- The result record of `OCRService.extractTextFromImage`. -/
structure OCRServerResult where
  text : List Char
  confidence : Nat
  hasContent : Bool
deriving DecidableEq

/-- Model of `OCRService.extractTextFromImage`.  The
preprocessing-plus-Tesseract stage is the oracle argument: `some (raw, conf)`
is a successful recognition with raw text `raw`, `none` any thrown
error (the `catch` branch).  The high-confidence word filtering in the
source is only logged, never used, and is omitted. -/
def extractTextFromImage (outcome : Option (List Char × Nat)) : OCRServerResult :=
  match outcome with
  | none => { text := [], confidence := 0, hasContent := false }
  | some raw =>
    let cleaned := cleanExtractedText raw.1
    { text := cleaned, confidence := raw.2, hasContent := decide (0 < cleaned.length) }

/-! ## Proofs

First the supporting lemmas (queue invariant preservation, change
detector arithmetic, classifier case analysis, OCR text-cleaning
bounds), then one theorem per specification claim. -/

lemma qinv_init : QInv initQueueState :=
  ⟨fun _ => rfl, by simp [initQueueState], by simp [initQueueState]⟩

lemma pushTask_queue (s : QueueState) (t : Nat) :
    (pushTask s t).queue =
      (if 3 < s.queue.length then s.queue.drop 1 else s.queue) ++ [t] := rfl

lemma pushTask_running (s : QueueState) (t : Nat) :
    (pushTask s t).running = s.running := rfl

lemma pushTask_isProcessing (s : QueueState) (t : Nat) :
    (pushTask s t).isProcessing = s.isProcessing := rfl

/-- The size cap of `queueAnalysis` keeps the pending queue at 4 or
fewer tasks. -/
lemma pushTask_len (s : QueueState) (t : Nat) (h : s.queue.length ≤ 4) :
    (pushTask s t).queue.length ≤ 4 := by
  rw [pushTask_queue]
  simp only [List.length_append, List.length_cons, List.length_nil]
  split_ifs with hlen
  · simp only [List.length_drop]
    omega
  · omega

lemma qinv_processQueue (s : QueueState)
    (h1 : s.isProcessing = false → s.running = [])
    (h2 : s.running.length ≤ 1) (h3 : s.queue.length ≤ 4) :
    QInv (processQueueStep s) := by
  unfold processQueueStep
  cases hp : s.isProcessing with
  | true =>
    simp only [if_true]
    refine ⟨fun hfalse => ?_, h2, h3⟩
    · rw [hp] at hfalse
      exact absurd hfalse (by simp)
  | false =>
    have hrun := h1 hp
    simp only [Bool.false_eq_true, if_false]
    cases hq : s.queue with
    | nil => exact ⟨h1, h2, h3⟩
    | cons hd rest =>
      refine ⟨fun hfalse => by simp at hfalse, ?_, ?_⟩
      · simp [hrun]
      · rw [hq] at h3
        simp only [List.length_cons] at h3
        simpa using by omega

lemma qinv_enqueue (s : QueueState) (t : Nat) (h : QInv s) :
    QInv (enqueueStep s t) := by
  obtain ⟨h1, h2, h3⟩ := h
  refine qinv_processQueue (pushTask s t) ?_ ?_ ?_
  · intro hf
    rw [pushTask_running]
    exact h1 (by rw [← pushTask_isProcessing s t]; exact hf)
  · rw [pushTask_running]; exact h2
  · exact pushTask_len s t h3

lemma qinv_settle (s : QueueState) (hne : s.running ≠ []) (h : QInv s) :
    QInv (finishStep s) := by
  obtain ⟨h1, h2, h3⟩ := h
  unfold finishStep
  rcases hr : s.running with _ | ⟨t, rs⟩
  · exact absurd hr hne
  · have hrs : rs = [] := by
      have := h2
      rw [hr] at this
      simp only [List.length_cons] at this
      exact List.eq_nil_of_length_eq_zero (by omega)
    rcases hq : s.queue with _ | ⟨hd, qrest⟩
    · exact ⟨fun _ => by simp [hrs], by simp [hrs], by simp⟩
    · have hproc : s.isProcessing = true := by
        by_contra hc
        have : s.running = [] := h1 (by simpa using hc)
        rw [hr] at this
        exact absurd this (by simp)
      refine ⟨fun hfalse => ?_, ?_, ?_⟩
      · rw [hproc] at hfalse
        exact absurd hfalse (by simp)
      · simp [hrs]
      · have := h3
        rw [hq] at this
        simp only [List.length_cons] at this
        simpa using by omega

lemma qinv_step {s s2 : QueueState} (h : QInv s) (hstep : QStep s s2) : QInv s2 := by
  cases hstep with
  | enqueue t => exact qinv_enqueue s t h
  | settle hne => exact qinv_settle s hne h

/-- Every reachable state of the analysis queue satisfies the safety
invariant. -/
lemma qinv_reachable (s : QueueState) (h : ReachableQ s) : QInv s := by
  induction h with
  | refl => exact qinv_init
  | tail _ hstep ih => exact qinv_step ih hstep

lemma sampleIndex_lt (len num den : Nat) (hlen : len ≠ 0) (hnd : num < den) :
    sampleIndex len num den < len := by
  unfold sampleIndex
  have hden : 0 < den := lt_of_le_of_lt (Nat.zero_le num) hnd
  rw [Nat.div_lt_iff_lt_mul hden]
  exact mul_lt_mul_of_pos_left hnd (Nat.pos_of_ne_zero hlen)

/-- On an empty new snapshot every in-range guard fails, so no sample
is counted. -/
lemma diffCount_nil_left (old : List Char) : diffCount [] old = 0 := by
  simp [diffCount, samplePairs, sampleIndex]

/-- Identical snapshots have identical samples at every point. -/
lemma diffCount_self (d : List Char) : diffCount d d = 0 := by
  simp [diffCount, samplePairs, sampleDiffers]

/-- With both snapshots nonempty all three sample offsets are in range,
so the guarded loop counts exactly the differing sample points. -/
lemma diffCount_eq_countP (newData old : List Char) (hold : old ≠ []) (hnew : newData ≠ []) :
    diffCount newData old = samplePairs.countP (sampleDiffers newData old) := by
  have hn : newData.length ≠ 0 := fun h => hnew (List.length_eq_zero.mp h)
  have ho : old.length ≠ 0 := fun h => hold (List.length_eq_zero.mp h)
  have g1 : sampleIndex newData.length 1 4 < newData.length := sampleIndex_lt _ 1 4 hn (by norm_num)
  have g2 : sampleIndex newData.length 1 2 < newData.length := sampleIndex_lt _ 1 2 hn (by norm_num)
  have g3 : sampleIndex newData.length 3 4 < newData.length := sampleIndex_lt _ 3 4 hn (by norm_num)
  have o1 : sampleIndex old.length 1 4 < old.length := sampleIndex_lt _ 1 4 ho (by norm_num)
  have o2 : sampleIndex old.length 1 2 < old.length := sampleIndex_lt _ 1 2 ho (by norm_num)
  have o3 : sampleIndex old.length 3 4 < old.length := sampleIndex_lt _ 3 4 ho (by norm_num)
  simp only [diffCount, samplePairs, List.foldl_cons, List.foldl_nil,
             List.countP_cons, List.countP_nil]
  simp only [g1, g2, g3, o1, o2, o3, and_self, if_true]
  split_ifs <;> omega

/-- An unchanged nonempty snapshot is never significant. -/
lemma hasSignificantImageChange_self (d : List Char) (hd : d ≠ []) :
    hasSignificantImageChange (some d) d = false := by
  have hie : d.isEmpty = false := by simpa using hd
  simp [hasSignificantImageChange, hie, Nat.dist_self, diffCount_self]

/-- The source change detector agrees everywhere with the amended
reference definition. -/
lemma hasSignificantImageChange_eq_amended (last : Option (List Char)) (img : List Char) :
    hasSignificantImageChange last img = hasSignificantImageChangeAmended last img := by
  cases last with
  | none => rfl
  | some old =>
    simp only [hasSignificantImageChange, hasSignificantImageChangeAmended]
    by_cases hold : old.isEmpty
    · simp [hold]
    · rw [if_neg hold, if_neg hold]
      congr 1
      by_cases hnew : img.isEmpty
      · have himg : img = [] := by simpa using hnew
        subst himg
        rw [if_pos hnew]
        simp [diffCount_nil_left]
      · rw [if_neg hnew]
        have ho : old ≠ [] := fun h => hold (by simp [h])
        have hn : img ≠ [] := fun h => hnew (by simp [h])
        rw [diffCount_eq_countP img old ho hn]

/-- The nested decision of the source classifier equals the flat
first-match-wins priority list of the specification. -/
lemma classify_eq_claim (text : List Char) (ty : AnalysisType) :
    classifyCommentary text ty = claimClassify text ty := by
  unfold classifyCommentary claimClassify
  by_cases h1 : 1 < text.length
  · cases h2 : detectMathContent text <;>
      cases h3 : detectQuestionWords text <;>
        cases h4 : detectLearningKeywords text <;>
          simp [h1, h2, h3, h4]
  · simp [h1]

/-- A text that passes the nonsense filter has at least 3 characters
(the filter's first check). -/
lemma nonsensical_false_length (t : List Char) (h : isTextNonsensical t = false) :
    3 ≤ t.length := by
  by_contra hlt
  push_neg at hlt
  unfold isTextNonsensical at h
  rw [if_pos hlt] at h
  exact absurd h (by simp)

/-- The cleaned OCR text is empty or at least 3 characters long. -/
lemma cleanExtractedText_empty_or_long (raw : List Char) :
    cleanExtractedText raw = [] ∨ 3 ≤ (cleanExtractedText raw).length := by
  unfold cleanExtractedText
  by_cases hr : raw.isEmpty
  · rw [if_pos hr]
    exact Or.inl rfl
  · rw [if_neg hr]
    by_cases hn : isTextNonsensical (cleanFinalText raw)
    · rw [if_pos hn]
      exact Or.inl rfl
    · rw [if_neg hn]
      exact Or.inr (nonsensical_false_length _ (by simpa using hn))

/-! ## Claim theorems -/

/-- Claim C1: over every reachable state of a `CanvasAnalysisService`
queue — under arbitrary interleavings of enqueues and task
settlements — at most one queued analysis task is in flight, so task
entry/exit intervals never overlap: each task started by the drain loop
settles (successfully or with its error caught) before the next one is
started, even when further enqueues arrive while a task runs. -/
theorem queue_tasks_never_overlap (s : QueueState) (h : ReachableQ s) :
    s.running.length ≤ 1 :=
  (qinv_reachable s h).2.1

/-- Witness for C1 at the concrete reachable initial state. -/
theorem queue_tasks_never_overlap_witness :
    initQueueState.running.length ≤ 1 :=
  queue_tasks_never_overlap initQueueState Relation.ReflTransGen.refl

/-- Claim C2, counterexample: enqueuing 5 tasks in immediate succession
on the idle queue makes all 5 tasks execute, not exactly 4 — the first
enqueue dequeues and starts task 1 synchronously, so only 3 tasks are
pending when the 5th arrives and the size cap never fires. -/
theorem five_burst_executes_all_five :
    startedTasks (drainAll (runEnqueues [1, 2, 3, 4, 5])) = [1, 2, 3, 4, 5] ∧
    (startedTasks (drainAll (runEnqueues [1, 2, 3, 4, 5]))).length ≠ 4 := by
  decide

/-- Claim C2, amended: enqueuing 5 tasks in immediate succession on an
idle queue results in all 5 tasks executing in FIFO order (the first
enqueue starts its task synchronously, leaving at most 3 pending);
the drop-oldest eviction first fires on a burst of 6, which executes
exactly 5 tasks with the oldest still-pending task (the 2nd) dropped
and the survivors in FIFO order. -/
theorem burst_execution_fifo_and_eviction :
    startedTasks (drainAll (runEnqueues [1, 2, 3, 4, 5])) = [1, 2, 3, 4, 5] ∧
    startedTasks (drainAll (runEnqueues [1, 2, 3, 4, 5, 6])) = [1, 3, 4, 5, 6] := by
  decide

/-- Claim C3: in every reachable state the pending queue holds at most
4 not-yet-started tasks; an enqueue arriving while more than 3 tasks
are pending removes exactly the oldest pending task before appending
the new one; and the eviction step never touches the in-flight task
list, so a task that has already started is never evicted. -/
theorem queue_bound_and_drop_oldest :
    (∀ s : QueueState, ReachableQ s → s.queue.length ≤ 4) ∧
    (∀ (s : QueueState) (t : Nat), 3 < s.queue.length →
      (pushTask s t).queue = s.queue.drop 1 ++ [t]) ∧
    (∀ (s : QueueState) (t : Nat), (pushTask s t).running = s.running) := by
  refine ⟨fun s h => (qinv_reachable s h).2.2, fun s t hlen => ?_, fun s t => rfl⟩
  rw [pushTask_queue, if_pos hlen]

/-- Witness for C3: the bound at the initial state, and the eviction
equations at a concrete state with 4 pending tasks and one in flight. -/
theorem queue_bound_and_drop_oldest_witness :
    initQueueState.queue.length ≤ 4 ∧
    (pushTask ⟨true, [1, 2, 3, 4], [0], []⟩ 9).queue = [1, 2, 3, 4].drop 1 ++ [9] ∧
    (pushTask ⟨true, [1, 2, 3, 4], [0], []⟩ 9).running = [0] :=
  ⟨queue_bound_and_drop_oldest.1 initQueueState Relation.ReflTransGen.refl,
   queue_bound_and_drop_oldest.2.1 ⟨true, [1, 2, 3, 4], [0], []⟩ 9 (by decide),
   queue_bound_and_drop_oldest.2.2 ⟨true, [1, 2, 3, 4], [0], []⟩ 9⟩

/-- Claim C4, counterexample: the source `hasSignificantImageChange`
and the claim's reference definition disagree on the concrete input
new snapshot `""` against stored snapshot `"ab"`: the source's in-range
guards skip every sample comparison and return `false`, while the
reference definition compares the (empty against nonempty) samples,
counts 3 differences and returns `true`. -/
theorem change_detector_claim_counterexample :
    hasSignificantImageChange (some ['a', 'b']) [] = false ∧
    hasSignificantImageChangeClaim (some ['a', 'b']) [] = true := by
  decide

/-- Claim C4, amended: `hasSignificantImageChange` is a pure predicate
equal to the reference definition amended with the source's in-range
sample guard — if no snapshot is stored (or the stored snapshot is
empty, which JS falsiness treats as absent) the result is `true`;
otherwise the result is `true` iff the encoded lengths differ by more
than 1000 or the new snapshot is nonempty and at least 2 of the 3
samples at relative offsets 25%, 50%, 75% differ.  In particular a
nonempty snapshot identical to the stored one yields `false`. -/
theorem change_detector_amended :
    (∀ (last : Option (List Char)) (img : List Char),
      hasSignificantImageChange last img = hasSignificantImageChangeAmended last img) ∧
    (∀ d : List Char, d ≠ [] → hasSignificantImageChange (some d) d = false) :=
  ⟨hasSignificantImageChange_eq_amended, hasSignificantImageChange_self⟩

/-- Witness for C4 at concrete snapshots. -/
theorem change_detector_amended_witness :
    hasSignificantImageChange (some ['a', 'b', 'c']) ['x'] =
      hasSignificantImageChangeAmended (some ['a', 'b', 'c']) ['x'] ∧
    hasSignificantImageChange (some ['a']) ['a'] = false :=
  ⟨change_detector_amended.1 (some ['a', 'b', 'c']) ['x'],
   change_detector_amended.2 ['a'] (by decide)⟩

/-- Claim C5: for every extracted text the classifier deterministically
assigns exactly one trigger reason by the stated first-match-wins
priority (math with correction iff an error pattern also matches, then
question, then learning keyword, then plain text, then drawing
activity, then canvas activity), and on the concrete text
`0 / 5 = 3` it returns `math_content_detected` with type `correction`
(the division-by-zero misconception pattern matches). -/
theorem classifier_first_match_and_example :
    (∀ (text : List Char) (ty : AnalysisType),
      classifyCommentary text ty = claimClassify text ty) ∧
    (∀ ty : AnalysisType,
      classifyCommentary ("0 / 5 = 3".toList) ty =
        (TriggerReason.math_content_detected, CommentType.correction)) := by
  refine ⟨classify_eq_claim, fun ty => ?_⟩
  cases ty <;> decide

/-- Claim C6: calling `analyzeCanvas` twice in a row with a snapshot
whose encoding equals the stored (nonempty) last snapshot returns the
identical cached `CanvasAnalysisResult` both times, leaves the service
state unchanged and queues zero analysis tasks (hence zero OCR calls);
moreover the return value of any `analyzeCanvas` call is always the
previous cached result — a fresh result is only ever delivered
asynchronously through the observer. -/
theorem analyzeCanvas_memoization :
    (∀ (st : ServiceState) (d : List Char),
      st.lastImageData = some d → d ≠ [] →
      analyzeCanvas st d = (st.lastAnalysis, st, 0) ∧
      analyzeCanvas (analyzeCanvas st d).2.1 d = (st.lastAnalysis, st, 0)) ∧
    (∀ (st : ServiceState) (img : List Char),
      (analyzeCanvas st img).1 = st.lastAnalysis) := by
  constructor
  · intro st d hst hd
    have hsig : hasSignificantImageChange st.lastImageData d = false := by
      rw [hst]
      exact hasSignificantImageChange_self d hd
    have h1 : analyzeCanvas st d = (st.lastAnalysis, st, 0) := by
      simp [analyzeCanvas, hsig]
    exact ⟨h1, by rw [h1]; exact h1⟩
  · intro st img
    unfold analyzeCanvas
    split_ifs <;> rfl

/-- Witness for C6 at a concrete cached state and snapshot. -/
theorem analyzeCanvas_memoization_witness :
    analyzeCanvas ⟨some ⟨[], 0, 0, true, AnalysisType.drawing⟩, some ['x'], true, []⟩ ['x'] =
      (some ⟨[], 0, 0, true, AnalysisType.drawing⟩,
       ⟨some ⟨[], 0, 0, true, AnalysisType.drawing⟩, some ['x'], true, []⟩, 0) ∧
    analyzeCanvas
        (analyzeCanvas ⟨some ⟨[], 0, 0, true, AnalysisType.drawing⟩,
          some ['x'], true, []⟩ ['x']).2.1 ['x'] =
      (some ⟨[], 0, 0, true, AnalysisType.drawing⟩,
       ⟨some ⟨[], 0, 0, true, AnalysisType.drawing⟩, some ['x'], true, []⟩, 0) :=
  analyzeCanvas_memoization.1 _ ['x'] rfl (by decide)

/-- Claim C7: when the text-generation collaborator fails,
`generateLiveCommentary` leaves the service state (including
`lastAnalysis` and `lastImageData`) unchanged, never invokes the
observer, and makes at most one collaborator call (no retry); the error
is caught, so nothing propagates to the caller. -/
theorem commentary_failure_silent :
    ∀ (st : ServiceState) (analysis : CanvasAnalysisResult) (now : Nat),
      (generateLiveCommentary st analysis none now).1 = st ∧
      (generateLiveCommentary st analysis none now).2.1 = none ∧
      (generateLiveCommentary st analysis none now).2.2 ≤ 1 := by
  intro st a now
  by_cases h : st.hasCallback = false
  · simp [generateLiveCommentary, h]
  · simp [generateLiveCommentary, h]

/-- Claim C8, counterexample: with a failing OCR collaborator the
queued analysis task classifies the (empty-text) result as
`drawing_activity` with type `suggestion` — because
`determineAnalysisType` maps empty text to `drawing` — not as
`canvas_activity` with type `observation` as the claim states. -/
theorem ocr_failure_classification_counterexample :
    (runAnalysisTask ⟨none, none, true, []⟩ ("img".toList) none (some ("ok".toList)) 0).2.1 =
      some { message := "ok".toList, type := CommentType.suggestion, timestamp := 0,
             triggerReason := TriggerReason.drawing_activity } ∧
    (TriggerReason.drawing_activity, CommentType.suggestion) ≠
      (TriggerReason.canvas_activity, CommentType.observation) := by
  decide

/-- Claim C8, amended: whenever the OCR collaborator call fails,
`performOCR` returns the empty-text, zero-confidence pair instead of
propagating the error (and passes successful results through); the
empty text then makes `determineAnalysisType` classify the snapshot as
`drawing`, so classification yields the `drawing_activity` trigger
reason with commentary type `suggestion` (the `canvas_activity`
trigger would require a non-drawing analysis type, which cannot
co-occur with empty text). -/
theorem ocr_failure_empty_and_drawing :
    performOCR none = ([], 0) ∧
    (∀ r : List Char × Nat, performOCR (some r) = r) ∧
    (∀ imageData : List Char, determineAnalysisType [] imageData = AnalysisType.drawing) ∧
    (∀ imageData : List Char,
      classifyCommentary [] (determineAnalysisType [] imageData) =
        (TriggerReason.drawing_activity, CommentType.suggestion)) := by
  have hty : ∀ imageData : List Char,
      determineAnalysisType [] imageData = AnalysisType.drawing := by
    intro d
    norm_num [determineAnalysisType]
  refine ⟨rfl, fun r => rfl, hty, fun d => ?_⟩
  rw [hty d]
  decide

/-- Claim C9: if no commentary callback is registered,
`generateLiveCommentary` returns immediately for every analysis result
and collaborator behaviour: zero collaborator calls, no commentary
constructed or delivered, and the service state unchanged. -/
theorem commentary_no_observer_noop :
    ∀ (st : ServiceState) (analysis : CanvasAnalysisResult)
      (chatOutcome : Option (List Char)) (now : Nat),
      st.hasCallback = false →
      generateLiveCommentary st analysis chatOutcome now = (st, none, 0) := by
  intro st a c now h
  simp [generateLiveCommentary, h]

/-- Witness for C9 at a concrete callback-free state. -/
theorem commentary_no_observer_noop_witness :
    generateLiveCommentary ⟨none, none, false, []⟩ ⟨[], 0, 0, true, AnalysisType.drawing⟩
        (some ("hi".toList)) 0 =
      (⟨none, none, false, []⟩, none, 0) :=
  commentary_no_observer_noop _ _ _ 0 rfl

/-- Claim C10: every result of the server-side
`OCRService.extractTextFromImage` satisfies `hasContent` iff the
returned text is nonempty, and the returned text is never a nonempty
string shorter than 3 characters — `cleanExtractedText` maps any raw
text whose cleaned form is shorter than 3 characters (or judged
nonsensical) to the empty string, and the error path returns empty text
with confidence 0 and `hasContent` false. -/
theorem server_ocr_result_invariant :
    ∀ outcome : Option (List Char × Nat),
      ((extractTextFromImage outcome).hasContent = true ↔
        (extractTextFromImage outcome).text ≠ []) ∧
      ((extractTextFromImage outcome).text = [] ∨
        3 ≤ (extractTextFromImage outcome).text.length) := by
  intro outcome
  cases outcome with
  | none => exact ⟨by simp [extractTextFromImage], Or.inl rfl⟩
  | some raw =>
    constructor
    · simp [extractTextFromImage, List.length_pos]
    · simpa [extractTextFromImage] using cleanExtractedText_empty_or_long raw.1

end DoodleMentor
